import Mathlib

/-!
Verification of the climate-classification notebook
(`2019-06-02-climate-with-keras.ipynb`).

The notebook loads a packed integer matrix of weather observations,
derives a day-of-year feature, trains a small embedding regression
network in Keras, clusters the learned station embeddings with k-means,
and enumerates (station, label) pairs.  The development below is a
shallow embedding of that pipeline: integer matrices are lists of lists
of `Int` (the values are small, far from int32 overflow), real-valued
network weights are `ℚ`, and the third-party library calls (Keras
`fit`, sklearn `KMeans`) are embedded by their argument records and by
executable functions mirroring their documented behaviour.
-/

namespace Climate

/-! ### Module-level constants of the notebook -/

def BATCH_SIZE : Nat := 50

def EMBEDDING_SIZE : Nat := 20

def HIDDEN_UNITS : Nat := 40

def CLUSTER_NUMBER : Nat := 6

/-! ### Column labels of the observation matrix -/

def STATION_ID_COL : Nat := 0

def MONTH_COL : Nat := 1

def DAY_COL : Nat := 2

def VAL_COLS_START : Nat := 3

def TMAX_COL : Nat := 3

def TMIN_COL : Nat := 4

def PRCP_COL : Nat := 5

/-! ### Data loading and the derived day-of-year column

`weather_data` is a 2-D integer matrix with six columns in the fixed
order station_id, month, day, max_temp, min_temp, precipitation.
`weather_data[:, c]` is column extraction. -/

/-- One element of a NumPy-style column slice: `row[c]`.  Well-formed
rows have all six columns; `getD` with default `0` never fires on them. -/
def getCol (row : List Int) (c : Nat) : Int := row.getD c 0

/-- `weather_data[:, c]`: the `c`-th column of the observation matrix. -/
def colData (data : List (List Int)) (c : Nat) : List Int :=
  data.map (fun row => getCol row c)

/-- The scalar day-of-year formula applied elementwise by the notebook:
`31 * (month - 1) + (day - 1)`. -/
def dayOfYear (m d : Int) : Int := 31 * (m - 1) + (d - 1)

/-- `weather_data_day_of_year_data = 31 * (weather_data[:, MONTH_COL] - 1)
+ (weather_data[:, DAY_COL] - 1)` — the elementwise NumPy expression from
the data-loading cell. -/
def weather_data_day_of_year_data (data : List (List Int)) : List Int :=
  List.zipWith dayOfYear (colData data MONTH_COL) (colData data DAY_COL)

/-- An observation record as described by the data model: station id,
month, day, and the three observed quantities. -/
structure Obs where
  station_id : Int
  month : Int
  day : Int
  tmax : Int
  tmin : Int
  prcp : Int
deriving DecidableEq, Repr

/-- The raw matrix row holding an observation record, in the fixed
six-column order. -/
def Obs.toRow (o : Obs) : List Int :=
  [o.station_id, o.month, o.day, o.tmax, o.tmin, o.prcp]

/-! ### Inferred station count

`NUM_STATIONS = np.max(weather_data[:, STATION_ID_COL]) + 1`.
`np.max` raises on an empty array, so `npMax` is only meaningful on
nonempty input; theorems about it assume the matrix is nonempty. -/

/-- `np.max` on a 1-D integer array.  On the empty array NumPy raises,
so the `[]` branch is never reached on well-formed input. -/
def npMax : List Int → Int
  | [] => 0
  | x :: xs => xs.foldl max x

/-- `NUM_STATIONS = np.max(weather_data[:, STATION_ID_COL]) + 1`. -/
def NUM_STATIONS (data : List (List Int)) : Int :=
  npMax (colData data STATION_ID_COL) + 1

/-! ### Model compilation and training-call arguments

The notebook compiles with `model.compile(optimizer='adam',
loss='mean_squared_error')` and trains with `model.fit([station_id_data,
weather_data_day_of_year_data], weather_prediction.reshape(-1, 3),
epochs=1)`.  Note that the `fit` call passes no `batch_size` argument,
so Keras falls back to its documented default of 32; the module-level
`BATCH_SIZE = 50` is never used. -/

/-- The keyword arguments of the `model.compile` call. -/
structure CompileArgs where
  optimizer : String
  loss : String
deriving DecidableEq, Repr

/-- `model.compile(optimizer='adam', loss='mean_squared_error')`. -/
def modelCompileArgs : CompileArgs :=
  { optimizer := "adam", loss := "mean_squared_error" }

/-- The keyword arguments of the `model.fit` call: `epochs=1` is passed,
`batch_size` is not (hence `none`). -/
structure FitArgs where
  epochs : Nat
  batch_size : Option Nat
deriving DecidableEq, Repr

/-- `model.fit(..., epochs=1)` — no `batch_size` keyword. -/
def modelFitArgs : FitArgs := { epochs := 1, batch_size := none }

/-- Keras `Model.fit` documented default: `batch_size=None` means 32. -/
def kerasDefaultBatchSize : Nat := 32

/-- The mini-batch size a `fit` call actually uses. -/
def effectiveBatchSize (f : FitArgs) : Nat :=
  f.batch_size.getD kerasDefaultBatchSize

/-- Split a dataset into consecutive mini-batches of size `b` (the last
one possibly shorter), the way one epoch of `fit` walks the data.  Fuel
is the list length, so the recursion is structural. -/
def toBatchesAux {α : Type} : Nat → Nat → List α → List (List α)
  | 0, _, _ => []
  | _ + 1, _, [] => []
  | fuel + 1, b, x :: xs => (x :: xs).take b :: toBatchesAux fuel b ((x :: xs).drop b)

/-- One epoch's mini-batches of size `b` over dataset `xs`. -/
def toBatches {α : Type} (b : Nat) (xs : List α) : List (List α) :=
  toBatchesAux xs.length b xs

/-! ### The network (Keras functional model)

`Embedding(output_dim=EMBEDDING_SIZE, input_dim=NUM_STATIONS)` feeds a
`Reshape((EMBEDDING_SIZE,))`, which is concatenated with the scalar
day-of-year input, fed to `Dense(HIDDEN_UNITS, activation='relu')`, fed
to `Dense(3, activation=None)`.  Weights are modelled over `ℚ`. -/

/-- Rectified-linear activation. -/
def relu (x : ℚ) : ℚ := max x 0

/-- Dot product of a weight row with an input vector. -/
def dot (w x : List ℚ) : ℚ := (List.zipWith (fun a b => a * b) w x).sum

/-- A fully-connected layer: one weight row and one bias per unit. -/
structure DenseLayer where
  weights : List (List ℚ)
  bias : List ℚ

/-- Forward pass of a fully-connected layer under activation `act`. -/
def denseForward (act : ℚ → ℚ) (L : DenseLayer) (x : List ℚ) : List ℚ :=
  List.zipWith (fun w b => act (dot w x + b)) L.weights L.bias

/-- The weights of the notebook's model: the embedding table (the whole
point of the network) and the two dense layers. -/
structure ClimateModel where
  embedded_stations : List (List ℚ)
  hidden : DenseLayer
  prediction : DenseLayer

/-- `Embedding` lookup followed by the `Reshape` to a flat vector: row
`sid` of the embedding table. -/
def embeddingLookup (table : List (List ℚ)) (sid : Nat) : List ℚ :=
  table.getD sid (List.replicate EMBEDDING_SIZE 0)

/-- `Concatenate()([embedded_station_reshape, month_day_input])`. -/
def station_and_day (M : ClimateModel) (sid : Nat) (day : ℚ) : List ℚ :=
  embeddingLookup M.embedded_stations sid ++ [day]

/-- `hidden = Dense(HIDDEN_UNITS, activation='relu')(station_and_day)`. -/
def hiddenOut (M : ClimateModel) (sid : Nat) (day : ℚ) : List ℚ :=
  denseForward relu M.hidden (station_and_day M sid day)

/-- `prediction = Dense(3, activation=None)(hidden)` — no activation on
the output layer. -/
def predictionOut (M : ClimateModel) (sid : Nat) (day : ℚ) : List ℚ :=
  denseForward (fun x => x) M.prediction (hiddenOut M sid day)

/-- `trained_embeddings = model.get_layer('embedded_stations').get_weights()[0]`:
the snapshot of the embedding table after training. -/
def trained_embeddings (M : ClimateModel) : List (List ℚ) :=
  M.embedded_stations

/-- The layer shapes the notebook's constructor fixes: the embedding
table has `n = NUM_STATIONS` rows of width `EMBEDDING_SIZE`, the hidden
layer has `HIDDEN_UNITS` units over `EMBEDDING_SIZE + 1` inputs, and the
output layer has 3 units over `HIDDEN_UNITS` inputs. -/
def ModelShape (n : Nat) (M : ClimateModel) : Prop :=
  M.embedded_stations.length = n ∧
  (∀ r ∈ M.embedded_stations, r.length = EMBEDDING_SIZE) ∧
  M.hidden.weights.length = HIDDEN_UNITS ∧
  M.hidden.bias.length = HIDDEN_UNITS ∧
  (∀ w ∈ M.hidden.weights, w.length = EMBEDDING_SIZE + 1) ∧
  M.prediction.weights.length = 3 ∧
  M.prediction.bias.length = 3 ∧
  (∀ w ∈ M.prediction.weights, w.length = HIDDEN_UNITS)

/-! ### k-means clustering

`KMeans(n_clusters=CLUSTER_NUMBER, random_state=0).fit(trained_embeddings)`
is a third-party call; it is embedded by the standard centroid-based
algorithm it implements: seeded centroid initialization, then
alternating nearest-centroid assignment and mean-update steps for a
bounded number of iterations, returning one integer label per row. -/

/-- Squared Euclidean distance between two points. -/
def sqDist (x y : List ℚ) : ℚ :=
  (List.zipWith (fun a b => (a - b) * (a - b)) x y).sum

/-- Scan the remaining distances, keeping the index of the smallest
value seen (first index on ties).  `i` is the index of the head of
`ds`. -/
def argminAux : List ℚ → Nat → Nat → ℚ → Nat
  | [], _, bestIdx, _ => bestIdx
  | d :: rest, i, bestIdx, bestVal =>
    if d < bestVal then argminAux rest (i + 1) i d
    else argminAux rest (i + 1) bestIdx bestVal

/-- Index of the centroid nearest to `x` (0 on an empty centroid list,
which a positive cluster count rules out). -/
def nearestCentroid (cs : List (List ℚ)) (x : List ℚ) : Nat :=
  match cs with
  | [] => 0
  | c :: rest => argminAux (rest.map (sqDist x)) 1 0 (sqDist x c)

/-- Assignment step: label every point with its nearest centroid. -/
def assignLabels (cs : List (List ℚ)) (points : List (List ℚ)) : List Nat :=
  points.map (nearestCentroid cs)

/-- Elementwise sum of two points. -/
def vecAdd (x y : List ℚ) : List ℚ := List.zipWith (fun a b => a + b) x y

/-- Mean of the points assigned to a cluster; an empty cluster keeps its
previous centroid. -/
def updateCentroid (old : List ℚ) (pts : List (List ℚ)) : List ℚ :=
  match pts with
  | [] => old
  | p :: rest =>
    let s := rest.foldl vecAdd p
    s.map (fun a => a / (pts.length : ℚ))

/-- One Lloyd iteration: assign every point, then move every centroid to
the mean of its assigned points. -/
def kmeansStep (points : List (List ℚ)) (cs : List (List ℚ)) : List (List ℚ) :=
  let labels := assignLabels cs points
  (List.range cs.length).map (fun j =>
    updateCentroid (cs.getD j [])
      ((points.zip labels).filterMap
        (fun pl => if pl.2 = j then some pl.1 else none)))

/-- Iterate Lloyd steps up to the iteration cap. -/
def kmeansIter (points : List (List ℚ)) : Nat → List (List ℚ) → List (List ℚ)
  | 0, cs => cs
  | n + 1, cs => kmeansIter points n (kmeansStep points cs)

/-- Seeded centroid initialization: pick `k` data points at offsets
determined by the seed. -/
def initCentroids (seed k : Nat) (points : List (List ℚ)) : List (List ℚ) :=
  (List.range k).map (fun i => points.getD ((seed + i) % points.length) [])

/-- sklearn's default iteration cap. -/
def kmeansMaxIter : Nat := 300

/-- `KMeans(n_clusters=k, random_state=seed).fit(points).labels_`: the
label array of the fitted clusterer. -/
def kmeansLabels (seed k : Nat) (points : List (List ℚ)) : List Nat :=
  assignLabels (kmeansIter points kmeansMaxIter (initCentroids seed k points)) points

/-! ### The seeded pipeline (determinism)

Training happens inside Keras; it is modelled as a function of the
effective random seed and the data.  An unseeded stage draws its seed
from ambient entropy; a seeded stage ignores the entropy.  In the
source, the clustering stage is seeded (`random_state=0`) and the
training stage is not; the determinism claim concerns runs where both
seeds are fixed. -/

/-- The seed a stage actually uses: the fixed seed when one is given,
otherwise ambient entropy. -/
def effectiveSeed (seed : Option Nat) (entropy : Nat) : Nat :=
  seed.getD entropy

/-- One end-to-end run: train (producing the embedding table), then
cluster the table.  `train` stands for the Keras training routine, a
deterministic function of its seed and the data per the determinism
contract; `trainSeed`/`clusterSeed` are the fixed seeds (if any) and
`trainEntropy`/`clusterEntropy` the ambient entropy each stage would
otherwise draw. -/
def pipelineRun (train : Nat → List (List Int) → List (List ℚ))
    (trainSeed clusterSeed : Option Nat) (trainEntropy clusterEntropy : Nat)
    (data : List (List Int)) : List (List ℚ) × List Nat :=
  let emb := train (effectiveSeed trainSeed trainEntropy) data
  (emb, kmeansLabels (effectiveSeed clusterSeed clusterEntropy) CLUSTER_NUMBER emb)

/-! ### Top-level execution of the notebook (name resolution)

The notebook's import cell binds `np`, `plt`, `Model`, `Dense`,
`Flatten`, `Embedding`, `Input`, `Reshape`, `Concatenate` and `KMeans`
— and nothing else; `os` is never imported.  Each subsequent top-level
statement is modelled by the global names it reads, the names it binds,
and the externally visible effect it performs; Python evaluates a
statement's right-hand side before binding, and raises `NameError` at
the first read of an unbound name, aborting the run. -/

/-- Global names the notebook's statements mention. -/
inductive PyName where
  | np | plt | kModel | kDense | kFlatten | kEmbedding | kInput
  | kReshape | kConcatenate | kKMeans
  | os | DATA_PATH | matrix_file
  | STATION_ID_COL | MONTH_COL | DAY_COL | VAL_COLS_START
  | TMAX_COL | TMIN_COL | PRCP_COL
  | weather_data | weather_data_day_of_year_data
  | station_id_data | weather_prediction
  | BATCH_SIZE | EMBEDDING_SIZE | HIDDEN_UNITS | CLUSTER_NUMBER
  | NUM_STATIONS
  | station_id_input | month_day_input | embedded_stations
  | embedded_station_reshape | station_and_day | hidden | prediction
  | model | trained_embeddings | list_of_stations | kmeans

deriving DecidableEq, Repr

/-- Externally visible effects of a statement. -/
inductive Effect where
  | fileRead | training | clustering | reporting
deriving DecidableEq, Repr

/-- One top-level statement: names read, names bound, effects. -/
structure Stmt where
  uses : List PyName
  binds : List PyName
  effects : List Effect

/-- Run the statements in order: a statement whose read names are all
bound performs its effects and binds its names; the first unbound read
raises `NameError` naming the culprit and nothing after it runs.
Returns the effects performed and the failing name, if any. -/
def runStmts : List PyName → List Stmt → List Effect × Option PyName
  | _, [] => ([], none)
  | env, s :: rest =>
    match s.uses.find? (fun n => ¬ env.contains n) with
    | some bad => ([], some bad)
    | none =>
      let r := runStmts (env ++ s.binds) rest
      (s.effects ++ r.1, r.2)

/-- The notebook's top-level statements, in execution order. -/
def notebookStmts : List Stmt :=
  [ -- import cell
    { uses := [], effects := [],
      binds := [.np, .plt, .kModel, .kDense, .kFlatten, .kEmbedding,
                .kInput, .kReshape, .kConcatenate, .kKMeans] },
    -- DATA_PATH = 'data/weather'
    { uses := [], binds := [.DATA_PATH], effects := [] },
    -- matrix_file = os.path.join(DATA_PATH, 'data/gsn-2000-TMAX-TMIN-PRCP.npz')
    { uses := [.os, .DATA_PATH], binds := [.matrix_file], effects := [] },
    -- column label constants
    { uses := [], effects := [],
      binds := [.STATION_ID_COL, .MONTH_COL, .DAY_COL, .VAL_COLS_START,
                .TMAX_COL, .TMIN_COL, .PRCP_COL] },
    -- with np.load(matrix_file) as npz_data: weather_data = ...
    { uses := [.np, .matrix_file], binds := [.weather_data],
      effects := [.fileRead] },
    -- weather_data_day_of_year_data = 31 * (...) + (...)
    { uses := [.weather_data], binds := [.weather_data_day_of_year_data],
      effects := [] },
    -- reshapes of the three input/target arrays
    { uses := [.weather_data, .weather_data_day_of_year_data],
      binds := [.station_id_data, .weather_data_day_of_year_data,
                .weather_prediction],
      effects := [] },
    -- network and clustering parameters
    { uses := [], effects := [],
      binds := [.BATCH_SIZE, .EMBEDDING_SIZE, .HIDDEN_UNITS,
                .CLUSTER_NUMBER] },
    -- NUM_STATIONS = np.max(weather_data[:, STATION_ID_COL]) + 1
    { uses := [.np, .weather_data, .STATION_ID_COL],
      binds := [.NUM_STATIONS], effects := [] },
    -- the functional-model definition cell (Input/Embedding/Reshape/
    -- Concatenate/Dense calls, Model, compile, summary)
    { uses := [.kInput, .kEmbedding, .EMBEDDING_SIZE, .NUM_STATIONS,
               .kReshape, .kConcatenate, .kDense, .HIDDEN_UNITS, .kModel],
      binds := [.station_id_input, .month_day_input, .embedded_stations,
                .embedded_station_reshape, .station_and_day, .hidden,
                .prediction, .model],
      effects := [] },
    -- model.fit(..., epochs=1)
    { uses := [.model, .station_id_data, .weather_data_day_of_year_data,
               .weather_prediction],
      binds := [], effects := [.training] },
    -- trained_embeddings = model.get_layer('embedded_stations').get_weights()[0]
    { uses := [.model], binds := [.trained_embeddings], effects := [] },
    -- with open(os.path.join(DATA_PATH, 'data/stations')) as f: list_of_stations = ...
    { uses := [.os, .DATA_PATH], binds := [.list_of_stations],
      effects := [.fileRead] },
    -- kmeans = KMeans(n_clusters=CLUSTER_NUMBER, random_state=0).fit(trained_embeddings)
    { uses := [.kKMeans, .CLUSTER_NUMBER, .trained_embeddings],
      binds := [.kmeans], effects := [.clustering] },
    -- for station, label in zip(list_of_stations, kmeans.labels_): pass
    { uses := [.list_of_stations, .kmeans], binds := [],
      effects := [.reporting] } ]

/-- Execution of the notebook from an empty global environment. -/
def notebookRun : List Effect × Option PyName :=
  runStmts [] notebookStmts

/-! ### The result reporter

`for station, label in zip(list_of_stations, kmeans.labels_): pass` —
the body is a no-op (the print is commented out). -/

/-- The pairs the reporting loop enumerates: Python `zip` truncates to
the shorter argument. -/
def reportPairs (stations : List String) (labels : List Nat) :
    List (String × Nat) :=
  stations.zip labels

/-- The lines the loop emits: the body is `pass`, so none, whatever the
inputs. -/
def reportOutput (stations : List String) (labels : List Nat) :
    List String :=
  (reportPairs stations labels).foldl (fun out _ => out) []

/-! ### Concrete instances used to evaluate the theorems -/

/-- A small two-row observation matrix (station ids 2 and 0). -/
def sampleData : List (List Int) :=
  [[2, 1, 1, 30, 20, 0], [0, 12, 31, 5, -5, 10]]

/-- A zero-initialized model with the notebook's layer shapes for three
stations. -/
def sampleModel : ClimateModel :=
  { embedded_stations := List.replicate 3 (List.replicate EMBEDDING_SIZE 0)
    hidden :=
      { weights := List.replicate HIDDEN_UNITS
          (List.replicate (EMBEDDING_SIZE + 1) 0)
        bias := List.replicate HIDDEN_UNITS 0 }
    prediction :=
      { weights := List.replicate 3 (List.replicate HIDDEN_UNITS 0)
        bias := List.replicate 3 0 } }

/-! ## Helper lemmas -/

/-- The day-of-year column of a matrix of observation records, record by
record. -/
theorem dayOfYear_rows (os : List Obs) :
    weather_data_day_of_year_data (os.map Obs.toRow) =
      os.map (fun o => 31 * (o.month - 1) + (o.day - 1)) := by
  induction os with
  | nil => rfl
  | cons o rest ih =>
    simp only [weather_data_day_of_year_data, colData, getCol, Obs.toRow,
      dayOfYear, MONTH_COL, DAY_COL, List.map_cons, List.zipWith_cons_cons,
      List.getD_cons_succ, List.getD_cons_zero] at ih ⊢
    exact congrArg _ ih

/-- Chunking with positive batch size and enough fuel loses no sample. -/
theorem toBatchesAux_join {α : Type} :
    ∀ (fuel b : Nat) (xs : List α), xs.length ≤ fuel → 1 ≤ b →
      (toBatchesAux fuel b xs).flatten = xs
  | 0, _, xs, h, _ => by
    have hx : xs = [] := List.eq_nil_of_length_eq_zero (Nat.le_zero.mp h)
    subst hx; rfl
  | _ + 1, _, [], _, _ => rfl
  | fuel + 1, b, x :: l, h, hb => by
    have hlen : ((x :: l).drop b).length ≤ fuel := by
      simp only [List.length_drop, List.length_cons]
      simp only [List.length_cons] at h
      omega
    calc (toBatchesAux (fuel + 1) b (x :: l)).flatten
        = (x :: l).take b ++ (toBatchesAux fuel b ((x :: l).drop b)).flatten := by
          simp [toBatchesAux]
      _ = (x :: l).take b ++ (x :: l).drop b := by
          rw [toBatchesAux_join fuel b ((x :: l).drop b) hlen hb]
      _ = x :: l := List.take_append_drop b (x :: l)

/-- One epoch's mini-batches concatenate back to the full dataset. -/
theorem toBatches_join {α : Type} (b : Nat) (hb : 1 ≤ b) (xs : List α) :
    (toBatches b xs).flatten = xs :=
  toBatchesAux_join xs.length b xs (le_refl _) hb

end Climate

namespace Climate

/-! ## Claim theorems -/

/-- C1 (counterexample): the spec's upper bound 360 on the day-of-year
index fails on a valid observation: month 12, day 31 is mapped to 371. -/
theorem c1_counterexample :
    weather_data_day_of_year_data [[7, 12, 31, 20, 10, 0]] = [371] ∧
      ¬ (371 : Int) ≤ 360 := by
  exact ⟨rfl, by decide⟩

/-- C1 (amended): for every valid observation (month in 1..12, day in
1..31) the derived day-of-year index satisfies 0 ≤ index ≤ 371
(371 = 31*11 + 30, attained at month 12, day 31), and for a fixed month
the index is monotonically non-decreasing as the day increases. -/
theorem c1_day_of_year_bounds (m d : Int)
    (hm1 : 1 ≤ m) (hm2 : m ≤ 12) (hd1 : 1 ≤ d) (hd2 : d ≤ 31) :
    (0 ≤ dayOfYear m d ∧ dayOfYear m d ≤ 371) ∧
      ∀ e : Int, d ≤ e → e ≤ 31 → dayOfYear m d ≤ dayOfYear m e := by
  constructor
  · unfold dayOfYear; omega
  · intro e hde he; unfold dayOfYear; omega

/-- C1 witness: the amended bounds and monotonicity at month 12,
days 1 ≤ 31. -/
theorem c1_day_of_year_bounds_witness :
    (0 ≤ dayOfYear 12 1 ∧ dayOfYear 12 1 ≤ 371) ∧
      dayOfYear 12 1 ≤ dayOfYear 12 31 := by
  have h := c1_day_of_year_bounds 12 1 (by decide) (by decide) (by decide)
    (by decide)
  exact ⟨h.1, h.2 31 (by decide) (by decide)⟩

/-- C2 (counterexample): `model.fit` is called without a `batch_size`
argument, so the mini-batch size is the Keras default 32, not the
module-level `BATCH_SIZE = 50`. -/
theorem c2_counterexample :
    modelFitArgs.batch_size = none ∧
      effectiveBatchSize modelFitArgs = 32 ∧
      effectiveBatchSize modelFitArgs ≠ BATCH_SIZE := by
  decide

/-- C2 (amended): training minimizes mean squared error with the adam
adaptive optimizer and makes exactly one pass over the data
(`epochs = 1`), in mini-batches that cover the full observation table;
but the batch size is the library default 32, because `fit` receives no
`batch_size` argument (`BATCH_SIZE = 50` is never passed). -/
theorem c2_training_config :
    modelCompileArgs.loss = "mean_squared_error" ∧
      modelCompileArgs.optimizer = "adam" ∧
      modelFitArgs.epochs = 1 ∧
      modelFitArgs.batch_size = none ∧
      effectiveBatchSize modelFitArgs = kerasDefaultBatchSize ∧
      ∀ xs : List (List Int),
        (toBatches (effectiveBatchSize modelFitArgs) xs).flatten = xs := by
  refine ⟨rfl, rfl, rfl, rfl, rfl, fun xs => ?_⟩
  exact toBatches_join 32 (by decide) xs

/-- C9: the derived day-of-year index of every observation record equals
`31*(month-1) + (day-1)`, the non-calendrical encoding that treats every
month as 31 days. -/
theorem c9_day_of_year_formula (os : List Obs) :
    weather_data_day_of_year_data (os.map Obs.toRow) =
      os.map (fun o => 31 * (o.month - 1) + (o.day - 1)) :=
  dayOfYear_rows os

/-- C3: executing the notebook from the top raises a name-resolution
error on `os` at the `matrix_file` assignment — before any file is read
— so no run reaches training, clustering, or reporting. -/
theorem c3_os_name_error :
    notebookRun = ([], some PyName.os) ∧
      Effect.fileRead ∉ notebookRun.1 ∧
      Effect.training ∉ notebookRun.1 ∧
      Effect.clustering ∉ notebookRun.1 ∧
      Effect.reporting ∉ notebookRun.1 := by
  decide

/-- C5: with the training and clustering seeds both fixed, the pipeline
output is independent of the ambient entropy either stage would
otherwise draw — two runs on identical input produce identical embedding
tables and identical cluster labels. -/
theorem c5_seeded_determinism
    (train : Nat → List (List Int) → List (List ℚ))
    (s t e1 e2 e3 e4 : Nat) (data : List (List Int)) :
    pipelineRun train (some s) (some t) e1 e2 data =
      pipelineRun train (some s) (some t) e3 e4 data := by
  simp [pipelineRun, effectiveSeed]

/-- The running best index stays below `N` when it starts below `N` and
all remaining candidate indices stay below `N`. -/
theorem argminAux_lt :
    ∀ (ds : List ℚ) (i b : Nat) (v : ℚ) (N : Nat),
      b < N → i + ds.length ≤ N → argminAux ds i b v < N
  | [], _, _, _, _, hb, _ => hb
  | d :: rest, i, b, v, N, hb, hlen => by
    have hlen2 : i + 1 + rest.length ≤ N := by
      simp only [List.length_cons] at hlen; omega
    unfold argminAux
    split
    · exact argminAux_lt rest (i + 1) i d N (by omega) hlen2
    · exact argminAux_lt rest (i + 1) b v N hb hlen2

/-- The nearest-centroid index is a valid centroid index. -/
theorem nearestCentroid_lt (cs : List (List ℚ)) (x : List ℚ)
    (h : cs ≠ []) : nearestCentroid cs x < cs.length := by
  match cs with
  | [] => exact absurd rfl h
  | c :: rest =>
    show argminAux (rest.map (sqDist x)) 1 0 (sqDist x c) < rest.length + 1
    refine argminAux_lt _ 1 0 _ (rest.length + 1) (Nat.succ_pos _) ?_
    simp only [List.length_map]
    omega

/-- A Lloyd step preserves the number of centroids. -/
theorem kmeansStep_length (points cs : List (List ℚ)) :
    (kmeansStep points cs).length = cs.length := by
  simp [kmeansStep]

/-- Iterated Lloyd steps preserve the number of centroids. -/
theorem kmeansIter_length (points : List (List ℚ)) :
    ∀ (n : Nat) (cs : List (List ℚ)),
      (kmeansIter points n cs).length = cs.length
  | 0, _ => rfl
  | n + 1, cs =>
    (kmeansIter_length points n (kmeansStep points cs)).trans
      (kmeansStep_length points cs)

/-- Seeded initialization produces exactly `k` centroids. -/
theorem initCentroids_length (seed k : Nat) (points : List (List ℚ)) :
    (initCentroids seed k points).length = k := by
  simp [initCentroids]

/-- C6: the clusterer with `CLUSTER_NUMBER = 6` assigns every embedding
row exactly one label, every label lies in `[0, CLUSTER_NUMBER)`, and at
most `CLUSTER_NUMBER` distinct labels occur. -/
theorem c6_cluster_labels (seed : Nat) (points : List (List ℚ)) :
    (kmeansLabels seed CLUSTER_NUMBER points).length = points.length ∧
      (∀ l ∈ kmeansLabels seed CLUSTER_NUMBER points, l < CLUSTER_NUMBER) ∧
      (kmeansLabels seed CLUSTER_NUMBER points).toFinset.card
        ≤ CLUSTER_NUMBER := by
  have hcs : (kmeansIter points kmeansMaxIter
      (initCentroids seed CLUSTER_NUMBER points)).length = CLUSTER_NUMBER := by
    rw [kmeansIter_length, initCentroids_length]
  have hbound : ∀ l ∈ kmeansLabels seed CLUSTER_NUMBER points,
      l < CLUSTER_NUMBER := by
    intro l hl
    simp only [kmeansLabels, assignLabels, List.mem_map] at hl
    obtain ⟨x, _, rfl⟩ := hl
    have hne : kmeansIter points kmeansMaxIter
        (initCentroids seed CLUSTER_NUMBER points) ≠ [] := by
      intro hnil
      rw [hnil] at hcs
      simp [CLUSTER_NUMBER] at hcs
    have hlt := nearestCentroid_lt _ x hne
    rw [hcs] at hlt
    exact hlt
  refine ⟨by simp [kmeansLabels, assignLabels], hbound, ?_⟩
  have hsub : (kmeansLabels seed CLUSTER_NUMBER points).toFinset
      ⊆ Finset.range CLUSTER_NUMBER := by
    intro l hl
    rw [List.mem_toFinset] at hl
    rw [Finset.mem_range]
    exact hbound l hl
  calc (kmeansLabels seed CLUSTER_NUMBER points).toFinset.card
      ≤ (Finset.range CLUSTER_NUMBER).card := Finset.card_le_card hsub
    _ = CLUSTER_NUMBER := Finset.card_range _

/-- The seed of a left fold by `max` is below the fold's value. -/
theorem foldl_max_init (l : List Int) :
    ∀ a : Int, a ≤ l.foldl max a := by
  induction l with
  | nil => intro a; exact le_refl a
  | cons b t ih =>
    intro a
    exact le_trans (le_max_left a b) (ih (max a b))

/-- Every list element is below a left fold of the list by `max`. -/
theorem foldl_max_mem (l : List Int) :
    ∀ (a x : Int), x ∈ l → x ≤ l.foldl max a := by
  induction l with
  | nil => intro a x hx; cases hx
  | cons b t ih =>
    intro a x hx
    cases hx with
    | head => exact le_trans (le_max_right a b) (foldl_max_init t (max a b))
    | tail _ h => exact ih (max a b) x h

/-- `np.max` dominates every element of a (nonempty) array. -/
theorem npMax_ge (l : List Int) (x : Int) (hx : x ∈ l) : x ≤ npMax l := by
  cases l with
  | nil => cases hx
  | cons a t =>
    cases hx with
    | head => exact foldl_max_init t x
    | tail _ h => exact foldl_max_mem t a x h

/-- C7: `NUM_STATIONS` is the maximum observed station ID plus one, so
every observed station ID is strictly below it; and a model whose
embedding table has `NUM_STATIONS` rows has exactly `max_id + 1` rows,
with `max_id` itself a valid row index. -/
theorem c7_num_stations (data : List (List Int)) (hne : data ≠ [])
    (hnn : ∀ row ∈ data, 0 ≤ getCol row STATION_ID_COL) :
    (∀ row ∈ data, getCol row STATION_ID_COL < NUM_STATIONS data) ∧
      NUM_STATIONS data = npMax (colData data STATION_ID_COL) + 1 ∧
      (∀ M : ClimateModel, ModelShape (NUM_STATIONS data).toNat M →
        (trained_embeddings M).length
            = (npMax (colData data STATION_ID_COL)).toNat + 1 ∧
          (npMax (colData data STATION_ID_COL)).toNat
            < (trained_embeddings M).length) := by
  have hmem : ∀ row ∈ data,
      getCol row STATION_ID_COL ∈ colData data STATION_ID_COL := by
    intro row hr
    simp only [colData, List.mem_map]
    exact ⟨row, hr, rfl⟩
  refine ⟨?_, rfl, ?_⟩
  · intro row hr
    have h := npMax_ge _ _ (hmem row hr)
    unfold NUM_STATIONS
    omega
  · intro M hM
    have h0 : 0 ≤ npMax (colData data STATION_ID_COL) := by
      cases data with
      | nil => exact absurd rfl hne
      | cons r t =>
        have hr0 : 0 ≤ getCol r STATION_ID_COL :=
          hnn r (List.mem_cons_self r t)
        exact le_trans hr0 (npMax_ge _ _ (hmem r (List.mem_cons_self r t)))
    have htn : (NUM_STATIONS data).toNat
        = (npMax (colData data STATION_ID_COL)).toNat + 1 := by
      unfold NUM_STATIONS
      omega
    have hrows : (trained_embeddings M).length = (NUM_STATIONS data).toNat :=
      hM.1
    rw [hrows, htn]
    exact ⟨rfl, Nat.lt_succ_self _⟩

/-- C7 witness: the `NUM_STATIONS` bound evaluated on the sample
matrix. -/
theorem c7_num_stations_witness :
    sampleData ≠ [] ∧
      (∀ row ∈ sampleData, 0 ≤ getCol row STATION_ID_COL) ∧
      (∀ row ∈ sampleData, getCol row STATION_ID_COL
        < NUM_STATIONS sampleData) :=
  ⟨by decide, by decide,
    (c7_num_stations sampleData (by decide) (by decide)).1⟩

/-- C8: for a model with the notebook's layer shapes and an in-range
station ID, the concatenated feature vector has 21 entries
(`EMBEDDING_SIZE + 1`), the hidden layer emits `HIDDEN_UNITS = 40`
values, the output layer emits 3, and the extracted embedding snapshot
has shape (`n`, `EMBEDDING_SIZE`). -/
theorem c8_network_shape (n : Nat) (M : ClimateModel) (sid : Nat)
    (day : ℚ) (hM : ModelShape n M) (hsid : sid < n) :
    (station_and_day M sid day).length = EMBEDDING_SIZE + 1 ∧
      EMBEDDING_SIZE + 1 = 21 ∧
      (hiddenOut M sid day).length = HIDDEN_UNITS ∧
      HIDDEN_UNITS = 40 ∧
      (predictionOut M sid day).length = 3 ∧
      (trained_embeddings M).length = n ∧
      (∀ r ∈ trained_embeddings M, r.length = EMBEDDING_SIZE) := by
  obtain ⟨hlen, hrows, hw, hb, _, hpw, hpb, _⟩ := hM
  have hs : sid < M.embedded_stations.length := by
    rw [hlen]; exact hsid
  have hlook : (embeddingLookup M.embedded_stations sid).length
      = EMBEDDING_SIZE := by
    unfold embeddingLookup
    rw [List.getD_eq_getElem _ _ hs]
    exact hrows _ (List.getElem_mem hs)
  have hsd : (station_and_day M sid day).length = EMBEDDING_SIZE + 1 := by
    simp [station_and_day, hlook]
  refine ⟨hsd, rfl, ?_, rfl, ?_, hlen, hrows⟩
  · simp [hiddenOut, denseForward, hw, hb]
  · simp [predictionOut, denseForward, hpw, hpb]

/-- C8 witness: the layer shapes evaluated on the zero-initialized
sample model. -/
theorem c8_network_shape_witness :
    ModelShape 3 sampleModel ∧
      (station_and_day sampleModel 2 5).length = EMBEDDING_SIZE + 1 ∧
      (predictionOut sampleModel 2 5).length = 3 := by
  have hshape : ModelShape 3 sampleModel := by
    refine ⟨by simp [sampleModel], ?_, by simp [sampleModel],
      by simp [sampleModel], ?_, by simp [sampleModel],
      by simp [sampleModel], ?_⟩ <;>
    · intro r hr
      simp only [sampleModel] at hr
      rw [List.eq_of_mem_replicate hr]
      simp
  have h := c8_network_shape 3 sampleModel 2 5 hshape (by decide)
  exact ⟨hshape, h.1, h.2.2.2.2.1⟩

/-- A left fold whose step ignores the element returns its seed. -/
theorem foldl_keep {α β : Type} :
    ∀ (l : List β) (init : α), l.foldl (fun out _ => out) init = init
  | [], _ => rfl
  | _ :: t, init => foldl_keep t init

/-- C10: the reporting loop enumerates exactly
min(catalog length, label count) pairs — surplus entries on either side
are silently dropped, pair `i` joins catalog entry `i` with label `i` —
and it emits nothing, the body being a no-op. -/
theorem c10_reporter (stations : List String) (labels : List Nat)
    (i : Nat) (h1 : i < (reportPairs stations labels).length) :
    (reportPairs stations labels).length
        = min stations.length labels.length ∧
      (reportPairs stations labels).get ⟨i, h1⟩
        = (stations.getD i "", labels.getD i 0) ∧
      reportOutput stations labels = [] := by
  have hlen : (reportPairs stations labels).length
      = min stations.length labels.length := by
    simp [reportPairs]
  have hi1 : i < stations.length := by rw [hlen] at h1; omega
  have hi2 : i < labels.length := by rw [hlen] at h1; omega
  refine ⟨hlen, ?_, foldl_keep _ _⟩
  show (stations.zip labels).get ⟨i, h1⟩ = _
  rw [List.get_eq_getElem, List.getElem_zip,
    List.getD_eq_getElem _ _ hi1, List.getD_eq_getElem _ _ hi2]

/-- C10 witness: a three-entry catalog against two labels yields two
pairs, the first pairing entry 0 with label 0, and no output. -/
theorem c10_reporter_witness :
    (reportPairs ["S0", "S1", "S2"] [4, 1]).length = min 3 2 ∧
      (reportPairs ["S0", "S1", "S2"] [4, 1]).get ⟨0, by decide⟩
        = ("S0", 4) ∧
      reportOutput ["S0", "S1", "S2"] [4, 1] = [] :=
  c10_reporter ["S0", "S1", "S2"] [4, 1] 0 (by decide)

end Climate
